import Mathlib

/-!
Formal model of the voice-call core of the echo-web repository.

Each structure and function below is a shallow embedding of the
corresponding TypeScript declaration; field and function names follow the
source.  Components covered:

* `CallStateManager` (src/lib/CallStateManager.ts): the process-wide
  singleton holding the active call descriptor.
* `VoiceService` (src/lib/voiceservice.ts): socket-event driven peer
  connection registry.
* `useVoiceInviteNotifications` (src/hooks/useVoiceInviteNotifications.ts):
  the invite notifier with per-invite expiration timers.
* `initializeManager` of the voice call provider: the ordered device
  acquisition fallback cascade.

Dates and `Date.now()` values are epoch milliseconds as `Nat`.  JavaScript
`Map`s are association lists with `set`-replaces-in-place semantics.
-/

/-- `callType` of an `ActiveCallState`: `'voice' | 'video'`. -/
inductive CallType where
  | voice
  | video
deriving DecidableEq, Repr

/-- `ActiveCallState` from CallStateManager.ts. -/
structure ActiveCallState where
  isMinimized : Bool
  channelId : String
  serverId : String
  channelName : String
  startTime : Nat
  callType : CallType
deriving DecidableEq, Repr

/-- Modelled from the spec: `VoiceVideoManager` (imported by
CallStateManager.ts, its implementation is not among the sources).  Only the
observables the call-state claims need are kept: the ids of currently open
peer links and whether teardown (`leaveVoiceChannel` and `disconnect`) has
run, which per the spec closes every peer link and clears roster and tile
state. -/
structure VoiceVideoManager where
  openPeerIds : List String
  torn : Bool
deriving DecidableEq, Repr

/-- Modelled from the spec: teardown closes all peer links and clears state. -/
def VoiceVideoManager.teardown (_m : VoiceVideoManager) : VoiceVideoManager :=
  { openPeerIds := [], torn := true }

/-- The mutable fields of the `CallStateManager` singleton. -/
structure CSMState where
  voiceManager : Option VoiceVideoManager
  callState : Option ActiveCallState
deriving DecidableEq, Repr

/-- `CallStateManager.startCall`: unconditionally overwrites `callState` with
a fresh descriptor (`isMinimized := false`, `startTime := new Date()`).  It
does not read either field and does not touch `voiceManager`. -/
def CSMState.startCall (s : CSMState) (channelId serverId channelName : String)
    (callType : CallType) (now : Nat) : CSMState :=
  { s with
    callState := some
      { isMinimized := false,
        channelId := channelId,
        serverId := serverId,
        channelName := channelName,
        startTime := now,
        callType := callType } }

/-- `CallStateManager.minimizeCall`: sets `isMinimized := true` when a call
state exists, otherwise does nothing. -/
def CSMState.minimizeCall (s : CSMState) : CSMState :=
  match s.callState with
  | some cs => { s with callState := some { cs with isMinimized := true } }
  | none => s

/-- `CallStateManager.maximizeCall`: sets `isMinimized := false` when a call
state exists, otherwise does nothing. -/
def CSMState.maximizeCall (s : CSMState) : CSMState :=
  match s.callState with
  | some cs => { s with callState := some { cs with isMinimized := false } }
  | none => s

/-- `CallStateManager.endCall`: if a manager exists, tears it down
(`leaveVoiceChannel`, `disconnect`) and sets the reference to `null`;
always clears `callState`. -/
def CSMState.endCall (_s : CSMState) : CSMState :=
  { voiceManager := none, callState := none }

/-- A sample call descriptor used by concrete witnesses. -/
def sampleCall : ActiveCallState :=
  { isMinimized := false, channelId := "general", serverId := "srv1",
    channelName := "General", startTime := 1000, callType := CallType.voice }

/-- C1 counterexample: starting from a state whose manager still has an open
peer link, two consecutive `startCall`s leave that manager untouched — its
peer link is still open and no teardown ran — refuting the claim that
`startCall` first performs a full teardown of the existing call. -/
theorem c1_counterexample :
    ((CSMState.startCall
        (CSMState.startCall
          { voiceManager := some { openPeerIds := ["p1"], torn := false },
            callState := some sampleCall }
          "chanA" "srvA" "Channel A" CallType.voice 2000)
        "chanB" "srvB" "Channel B" CallType.video 3000).voiceManager
      = some { openPeerIds := ["p1"], torn := false }) ∧
    ¬ ((CSMState.startCall
        (CSMState.startCall
          { voiceManager := some { openPeerIds := ["p1"], torn := false },
            callState := some sampleCall }
          "chanA" "srvA" "Channel A" CallType.voice 2000)
        "chanB" "srvB" "Channel B" CallType.video 3000).voiceManager
      = some (VoiceVideoManager.teardown { openPeerIds := ["p1"], torn := false })) := by
  decide

/-- C1 (amended): two consecutive `startCall`s with no intervening `endCall`
leave exactly one `ActiveCallState` — the second call's descriptor — and
signal no error, but `startCall` performs no teardown: the previous voice
manager, with whatever peer links it holds, is left exactly as it was. -/
theorem c1_startCall_replaces_without_teardown (s : CSMState)
    (c₁ v₁ n₁ : String) (t₁ : CallType) (m₁ : Nat)
    (c₂ v₂ n₂ : String) (t₂ : CallType) (m₂ : Nat) :
    ((s.startCall c₁ v₁ n₁ t₁ m₁).startCall c₂ v₂ n₂ t₂ m₂).callState
        = some { isMinimized := false, channelId := c₂, serverId := v₂,
                 channelName := n₂, startTime := m₂, callType := t₂ } ∧
    ((s.startCall c₁ v₁ n₁ t₁ m₁).startCall c₂ v₂ n₂ t₂ m₂).voiceManager
        = s.voiceManager := by
  constructor <;> simp [CSMState.startCall]

/-- C4: `endCall` is idempotent.  Called when no call is active (no call
state and no manager) it changes nothing and signals no error, and a second
consecutive invocation is always a no-op. -/
theorem c4_endCall_idempotent :
    (∀ s : CSMState, s.voiceManager = none → s.callState = none →
        s.endCall = s) ∧
    (∀ s : CSMState, s.endCall.endCall = s.endCall) := by
  constructor
  · intro s hv hc
    cases s
    simp_all [CSMState.endCall]
  · intro s
    rfl

/-- C4 witness: `endCall` on the empty state is the identity. -/
theorem c4_endCall_idempotent_witness :
    (CSMState.mk none none).endCall = CSMState.mk none none :=
  c4_endCall_idempotent.1 (CSMState.mk none none) rfl rfl

/-- C6 counterexample: from a call state that is already minimized,
`maximizeCall` after `minimizeCall` does not restore the prior state — it
forces `isMinimized := false`. -/
theorem c6_counterexample :
    (CSMState.maximizeCall (CSMState.minimizeCall
        { voiceManager := none,
          callState := some { sampleCall with isMinimized := true } }))
      ≠ { voiceManager := none,
          callState := some { sampleCall with isMinimized := true } } := by
  decide

/-- C6 (amended): `minimizeCall` and `maximizeCall` change only the
`isMinimized` field, never touch the voice manager, are no-ops without an
active call, and `maximizeCall` after `minimizeCall` restores the exact
prior state whenever that prior state was not minimized. -/
theorem c6_minimize_maximize_pure_toggles :
    (∀ (s : CSMState) (cs : ActiveCallState), s.callState = some cs →
        s.minimizeCall.callState = some { cs with isMinimized := true } ∧
        s.minimizeCall.voiceManager = s.voiceManager ∧
        s.maximizeCall.callState = some { cs with isMinimized := false } ∧
        s.maximizeCall.voiceManager = s.voiceManager ∧
        (cs.isMinimized = false → s.minimizeCall.maximizeCall = s)) ∧
    (∀ s : CSMState, s.callState = none →
        s.minimizeCall = s ∧ s.maximizeCall = s) := by
  constructor
  · intro s cs hcs
    refine ⟨?_, ?_, ?_, ?_, ?_⟩ <;>
      simp [CSMState.minimizeCall, CSMState.maximizeCall, hcs]
    intro hmin
    cases s
    cases cs
    simp_all [CSMState.minimizeCall, CSMState.maximizeCall]
  · intro s hnone
    cases s
    simp_all [CSMState.minimizeCall, CSMState.maximizeCall]

/-- C6 witness: minimize then maximize on a concrete non-minimized call
restores it exactly, and both operations are no-ops on the empty state. -/
theorem c6_minimize_maximize_witness :
    ((CSMState.mk none (some sampleCall)).minimizeCall.maximizeCall
        = CSMState.mk none (some sampleCall)) ∧
    (CSMState.mk none none).minimizeCall = CSMState.mk none none :=
  ⟨((c6_minimize_maximize_pure_toggles.1 (CSMState.mk none (some sampleCall))
      sampleCall rfl).2.2.2.2 rfl),
   (c6_minimize_maximize_pure_toggles.2 (CSMState.mk none none) rfl).1⟩

/-- One `RTCPeerConnection` of voiceservice.ts, reduced to the observables
the claims need.  `applied` records candidates passed to `addIceCandidate`
while a remote description was set; `appliedWithoutRemote` records
`addIceCandidate` calls made with no remote description (which reject in the
browser, losing the candidate). -/
structure PeerConn where
  isInitiator : Bool
  tracks : List String
  localDescription : Option String
  remoteDescription : Option String
  applied : List String
  appliedWithoutRemote : List String
deriving DecidableEq, Repr

/-- Messages emitted on the signaling socket by `VoiceService`. -/
inductive OutMsg where
  | offer (target sdp : String)
  | answer (target sdp : String)
  | iceCandidate (target candidate : String)
deriving DecidableEq, Repr

/-- Abstraction of the SDP produced by `createOffer` for a given target. -/
def offerSdp (targetSocketId : String) : String :=
  String.append "offer-to:" targetSocketId

/-- Abstraction of the SDP produced by `createAnswer` after the remote offer
`remoteSdp` has been set. -/
def answerSdp (remoteSdp : String) : String :=
  String.append "answer-to:" remoteSdp

/-- Lookup in the `peerConnections` map (JS `Map.get`). -/
def lookupPC (ps : List (String × PeerConn)) (id : String) : Option PeerConn :=
  match ps with
  | [] => none
  | (k, v) :: rest => if k = id then some v else lookupPC rest id

/-- JS `Map.set`: replace in place if the key exists, else append. -/
def setPC (ps : List (String × PeerConn)) (id : String) (pc : PeerConn) :
    List (String × PeerConn) :=
  match ps with
  | [] => [(id, pc)]
  | (k, v) :: rest =>
      if k = id then (k, pc) :: rest else (k, v) :: setPC rest id pc

/-- JS `Map.delete` for the `peerConnections` map (keys are unique, so
removing every entry with the key equals removing the single entry). -/
def erasePC (ps : List (String × PeerConn)) (id : String) :
    List (String × PeerConn) :=
  match ps with
  | [] => []
  | (k, v) :: rest =>
      if k = id then erasePC rest id else (k, v) :: erasePC rest id

/-- The mutable fields of a `VoiceService` instance, plus logs of its
side effects: emitted socket messages, `close()` calls on peer connections,
invocations of the user-disconnected callback, and the number of
`getUserMedia` acquisitions. -/
structure VoiceServiceState where
  socketConnected : Bool
  localStream : Option (List String)
  peerConnections : List (String × PeerConn)
  listenerRegistrations : Nat
  mediaAcquisitions : Nat
  outbox : List OutMsg
  closedLog : List String
  disconnectedCallbackLog : List String
deriving DecidableEq, Repr

/-- A fresh `VoiceService` (constructor state). -/
def VoiceServiceState.init : VoiceServiceState :=
  { socketConnected := false, localStream := none, peerConnections := [],
    listenerRegistrations := 0, mediaAcquisitions := 0, outbox := [],
    closedLog := [], disconnectedCallbackLog := [] }

/-- `VoiceService.connect`.  If a socket already exists it returns at once.
Otherwise it calls `getUserMedia` (audio only); `acquired` is that call's
result — `some tracks` on success, `none` when the browser rejects, in which
case the error is rethrown and neither the stream nor the socket is set.
On success the socket is created and `setupSocketListeners` runs once.
The returned `Bool` is `false` exactly when the promise rejects. -/
def VoiceServiceState.connect (s : VoiceServiceState)
    (acquired : Option (List String)) : VoiceServiceState × Bool :=
  if s.socketConnected then (s, true)
  else
    match acquired with
    | some tracks =>
        ({ s with
            mediaAcquisitions := s.mediaAcquisitions + 1,
            localStream := some tracks,
            socketConnected := true,
            listenerRegistrations := s.listenerRegistrations + 1 }, true)
    | none =>
        ({ s with mediaAcquisitions := s.mediaAcquisitions + 1 }, false)

/-- Incoming socket events handled by `setupSocketListeners`. -/
inductive SocketEvent where
  | userJoined (socketId : String)
  | webrtcOffer (sender sdp : String)
  | webrtcAnswer (sender sdp : String)
  | webrtcIceCandidate (sender candidate : String)
  | userDisconnected (socketId : String)
deriving DecidableEq, Repr

/-- `VoiceService.createPeerConnection`: builds a fresh connection, stores it
in the map (replacing any previous entry for the same id without closing
it), and adds every local track.  When `isInitiator` is set, the installed
`negotiationneeded` handler — which the browser fires after `addTrack` when
at least one track was added — creates an offer, sets it as local
description and emits it to the target. -/
def VoiceServiceState.createPeerConn (s : VoiceServiceState)
    (targetSocketId : String) (isInitiator : Bool) :
    VoiceServiceState × PeerConn :=
  let tracks := s.localStream.getD []
  let base : PeerConn :=
    { isInitiator := isInitiator, tracks := tracks, localDescription := none,
      remoteDescription := none, applied := [], appliedWithoutRemote := [] }
  if isInitiator ∧ tracks ≠ [] then
    let pc := { base with localDescription := some (offerSdp targetSocketId) }
    ({ s with
        peerConnections := setPC s.peerConnections targetSocketId pc,
        outbox := s.outbox ++ [OutMsg.offer targetSocketId (offerSdp targetSocketId)] },
     pc)
  else
    ({ s with peerConnections := setPC s.peerConnections targetSocketId base },
     base)

/-- The socket event handlers registered by `setupSocketListeners`, one step
per delivered event. -/
def VoiceServiceState.handleEvent (s : VoiceServiceState) :
    SocketEvent → VoiceServiceState
  | SocketEvent.userJoined socketId =>
      (s.createPeerConn socketId true).1
  | SocketEvent.webrtcOffer sender sdp =>
      let s₁ := (s.createPeerConn sender false).1
      let pc := (s.createPeerConn sender false).2
      let pc₁ := { pc with
        remoteDescription := some sdp,
        localDescription := some (answerSdp sdp) }
      { s₁ with
        peerConnections := setPC s₁.peerConnections sender pc₁,
        outbox := s₁.outbox ++ [OutMsg.answer sender (answerSdp sdp)] }
  | SocketEvent.webrtcAnswer sender sdp =>
      match lookupPC s.peerConnections sender with
      | some pc =>
          let pc₁ := { pc with remoteDescription := some sdp }
          { s with peerConnections := setPC s.peerConnections sender pc₁ }
      | none => s
  | SocketEvent.webrtcIceCandidate sender candidate =>
      match lookupPC s.peerConnections sender with
      | some pc =>
          let pc₁ :=
            if pc.remoteDescription.isSome then
              { pc with applied := pc.applied ++ [candidate] }
            else
              { pc with appliedWithoutRemote :=
                  pc.appliedWithoutRemote ++ [candidate] }
          { s with peerConnections := setPC s.peerConnections sender pc₁ }
      | none => s
  | SocketEvent.userDisconnected socketId =>
      match lookupPC s.peerConnections socketId with
      | some _ =>
          { s with
            closedLog := s.closedLog ++ [socketId],
            peerConnections := erasePC s.peerConnections socketId,
            disconnectedCallbackLog := s.disconnectedCallbackLog ++ [socketId] }
      | none =>
          { s with
            disconnectedCallbackLog := s.disconnectedCallbackLog ++ [socketId] }

/-- Looking up the key just written by `setPC` yields the written value. -/
theorem lookupPC_setPC_self (ps : List (String × PeerConn)) (id : String)
    (pc : PeerConn) : lookupPC (setPC ps id pc) id = some pc := by
  induction ps with
  | nil => simp [setPC, lookupPC]
  | cons kv rest ih =>
      obtain ⟨k, v⟩ := kv
      by_cases h : k = id
      · simp [setPC, lookupPC, h]
      · simp [setPC, lookupPC, h, ih]

/-- After `erasePC id`, the erased key is absent. -/
theorem lookupPC_erasePC_self (ps : List (String × PeerConn)) (id : String) :
    lookupPC (erasePC ps id) id = none := by
  induction ps with
  | nil => simp [erasePC, lookupPC]
  | cons kv rest ih =>
      obtain ⟨k, v⟩ := kv
      by_cases h : k = id
      · simp [erasePC, lookupPC, h, ih]
      · simp [erasePC, lookupPC, h, ih]

/-- `erasePC id` leaves every other key's binding unchanged. -/
theorem lookupPC_erasePC_ne (ps : List (String × PeerConn)) (id q : String)
    (hq : q ≠ id) : lookupPC (erasePC ps id) q = lookupPC ps q := by
  induction ps with
  | nil => simp [erasePC]
  | cons kv rest ih =>
      obtain ⟨k, v⟩ := kv
      have hiq : ¬(id = q) := fun hc => hq hc.symm
      by_cases h : k = id
      · simp [erasePC, lookupPC, h, hiq, ih]
      · by_cases h2 : k = q
        · simp [erasePC, lookupPC, h, h2, hq]
        · simp [erasePC, lookupPC, h, h2, ih]

/-- C10: `VoiceService.connect` is idempotent once a socket exists — it
returns immediately with the state untouched: no second `getUserMedia`
call, no second socket, no re-registration of listeners. -/
theorem c10_connect_idempotent_once_connected (s : VoiceServiceState)
    (acquired : Option (List String)) (h : s.socketConnected = true) :
    s.connect acquired = (s, true) := by
  simp [VoiceServiceState.connect, h]

/-- C10 witness: after a first successful `connect`, a second `connect` on
the resulting state returns that state unchanged. -/
theorem c10_connect_idempotent_witness :
    (VoiceServiceState.init.connect (some ["audio0"])).1.connect
        (some ["audio1"])
      = ((VoiceServiceState.init.connect (some ["audio0"])).1, true) :=
  c10_connect_idempotent_once_connected
    (VoiceServiceState.init.connect (some ["audio0"])).1 (some ["audio1"]) rfl

/-- C8: on a `user-joined` event the observer creates an initiator
connection carrying its local tracks and sends an offer; on a `webrtc-offer`
for an unknown peer it creates a responder connection, sets the remote
description, generates an answer, sets it locally and sends it back to the
offerer. -/
theorem c8_initiator_offer_responder_answer (s : VoiceServiceState)
    (ts : List String) (p sdp : String) (hstream : s.localStream = some ts)
    (hts : ts ≠ []) (_hunknown : lookupPC s.peerConnections p = none) :
    (lookupPC ((s.handleEvent (SocketEvent.userJoined p)).peerConnections) p
        = some { isInitiator := true, tracks := ts,
                 localDescription := some (offerSdp p),
                 remoteDescription := none, applied := [],
                 appliedWithoutRemote := [] } ∧
      (s.handleEvent (SocketEvent.userJoined p)).outbox
        = s.outbox ++ [OutMsg.offer p (offerSdp p)]) ∧
    (lookupPC ((s.handleEvent (SocketEvent.webrtcOffer p sdp)).peerConnections) p
        = some { isInitiator := false, tracks := ts,
                 localDescription := some (answerSdp sdp),
                 remoteDescription := some sdp, applied := [],
                 appliedWithoutRemote := [] } ∧
      (s.handleEvent (SocketEvent.webrtcOffer p sdp)).outbox
        = s.outbox ++ [OutMsg.answer p (answerSdp sdp)]) := by
  refine ⟨⟨?_, ?_⟩, ⟨?_, ?_⟩⟩ <;>
    simp [VoiceServiceState.handleEvent, VoiceServiceState.createPeerConn,
      hstream, hts, lookupPC_setPC_self]

/-- C8 witness: both halves at a concrete connected state with one audio
track and previously unseen peer "peerB". -/
theorem c8_initiator_offer_responder_answer_witness :
    lookupPC
        (((VoiceServiceState.init.connect (some ["audio0"])).1.handleEvent
            (SocketEvent.userJoined "peerB")).peerConnections) "peerB"
      = some { isInitiator := true, tracks := ["audio0"],
               localDescription := some (offerSdp "peerB"),
               remoteDescription := none, applied := [],
               appliedWithoutRemote := [] } :=
  (c8_initiator_offer_responder_answer
    (VoiceServiceState.init.connect (some ["audio0"])).1 ["audio0"] "peerB"
    "sdpX" rfl (by decide) rfl).1.1

/-- C9: a `user-disconnected` event for a peer with a registered connection
closes that connection and deletes its map entry in the same handler step —
no dangling entry survives — and leaves every other peer's connection and
the rest of the state untouched. -/
theorem c9_disconnect_closes_and_erases (s : VoiceServiceState) (p : String)
    (pc : PeerConn) (h : lookupPC s.peerConnections p = some pc) :
    (s.handleEvent (SocketEvent.userDisconnected p)).closedLog
        = s.closedLog ++ [p] ∧
    lookupPC ((s.handleEvent (SocketEvent.userDisconnected p)).peerConnections) p
        = none ∧
    (∀ q : String, q ≠ p →
      lookupPC ((s.handleEvent (SocketEvent.userDisconnected p)).peerConnections) q
        = lookupPC s.peerConnections q) ∧
    (s.handleEvent (SocketEvent.userDisconnected p)).outbox = s.outbox ∧
    (s.handleEvent (SocketEvent.userDisconnected p)).localStream
        = s.localStream := by
  refine ⟨?_, ?_, ?_, ?_, ?_⟩ <;>
    simp [VoiceServiceState.handleEvent, h, lookupPC_erasePC_self]
  intro q hq
  exact lookupPC_erasePC_ne s.peerConnections p q hq

/-- C9 witness: disconnecting "peerB" right after its connection was created
erases exactly its entry and logs the close. -/
theorem c9_disconnect_closes_and_erases_witness :
    lookupPC
        ((((VoiceServiceState.init.connect (some ["audio0"])).1.handleEvent
              (SocketEvent.userJoined "peerB")).handleEvent
            (SocketEvent.userDisconnected "peerB")).peerConnections) "peerB"
      = none :=
  (c9_disconnect_closes_and_erases
    ((VoiceServiceState.init.connect (some ["audio0"])).1.handleEvent
      (SocketEvent.userJoined "peerB")) "peerB"
    { isInitiator := true, tracks := ["audio0"],
      localDescription := some (offerSdp "peerB"), remoteDescription := none,
      applied := [], appliedWithoutRemote := [] } (by decide)).2.1

/-- C2 counterexample: an ICE candidate delivered before the offer of its
peer is silently dropped — the handler leaves the state completely
unchanged, nothing is buffered — and once the offer later arrives and the
remote description is set, the candidate is never applied: both candidate
logs of the new connection are empty. -/
theorem c2_counterexample :
    ((VoiceServiceState.init.connect (some ["audio0"])).1.handleEvent
        (SocketEvent.webrtcIceCandidate "peerA" "cand1")
      = (VoiceServiceState.init.connect (some ["audio0"])).1) ∧
    (lookupPC
        ((((VoiceServiceState.init.connect (some ["audio0"])).1.handleEvent
              (SocketEvent.webrtcIceCandidate "peerA" "cand1")).handleEvent
            (SocketEvent.webrtcOffer "peerA" "sdpA")).peerConnections) "peerA"
      = some { isInitiator := false, tracks := ["audio0"],
               localDescription := some (answerSdp "sdpA"),
               remoteDescription := some "sdpA", applied := [],
               appliedWithoutRemote := [] }) := by
  exact ⟨by decide, by decide⟩

/-- C2 (amended): the `webrtc-ice-candidate` handler performs no buffering.
A candidate for a peer with no registered connection is dropped outright
(the handler is a no-op), and a candidate for a registered connection is
handed to `addIceCandidate` immediately — appended to the applied log when a
remote description is set, and attempted against a description-less
connection (where the browser rejects it) otherwise. -/
theorem c2_no_buffering (s : VoiceServiceState) (p c : String) :
    (lookupPC s.peerConnections p = none →
        s.handleEvent (SocketEvent.webrtcIceCandidate p c) = s) ∧
    (∀ pc : PeerConn, lookupPC s.peerConnections p = some pc →
      pc.remoteDescription = none →
        lookupPC ((s.handleEvent
              (SocketEvent.webrtcIceCandidate p c)).peerConnections) p
          = some { pc with
              appliedWithoutRemote := pc.appliedWithoutRemote ++ [c] }) ∧
    (∀ (pc : PeerConn) (d : String),
      lookupPC s.peerConnections p = some pc →
      pc.remoteDescription = some d →
        lookupPC ((s.handleEvent
              (SocketEvent.webrtcIceCandidate p c)).peerConnections) p
          = some { pc with applied := pc.applied ++ [c] }) := by
  refine ⟨?_, ?_, ?_⟩
  · intro hnone
    simp [VoiceServiceState.handleEvent, hnone]
  · intro pc hpc hnoremote
    simp [VoiceServiceState.handleEvent, hpc, hnoremote, lookupPC_setPC_self]
  · intro pc d hpc hremote
    simp [VoiceServiceState.handleEvent, hpc, hremote, lookupPC_setPC_self]

/-- C2 witness: all three branches at concrete states — unknown peer
(no-op), known peer without remote description, known peer with one. -/
theorem c2_no_buffering_witness :
    ((VoiceServiceState.init.connect (some ["audio0"])).1.handleEvent
        (SocketEvent.webrtcIceCandidate "peerA" "cand1")
      = (VoiceServiceState.init.connect (some ["audio0"])).1) ∧
    (lookupPC
        ((((VoiceServiceState.init.connect (some ["audio0"])).1.handleEvent
              (SocketEvent.webrtcOffer "peerA" "sdpA")).handleEvent
            (SocketEvent.webrtcIceCandidate "peerA" "cand2")).peerConnections)
          "peerA"
      = some { isInitiator := false, tracks := ["audio0"],
               localDescription := some (answerSdp "sdpA"),
               remoteDescription := some "sdpA", applied := ["cand2"],
               appliedWithoutRemote := [] }) :=
  ⟨(c2_no_buffering (VoiceServiceState.init.connect (some ["audio0"])).1
      "peerA" "cand1").1 rfl,
   (c2_no_buffering
      ((VoiceServiceState.init.connect (some ["audio0"])).1.handleEvent
        (SocketEvent.webrtcOffer "peerA" "sdpA")) "peerA" "cand2").2.2
      { isInitiator := false, tracks := ["audio0"],
        localDescription := some (answerSdp "sdpA"),
        remoteDescription := some "sdpA", applied := [],
        appliedWithoutRemote := [] } "sdpA" (by decide) rfl⟩

/-- `VoiceInvite` from useVoiceInviteNotifications.ts. -/
structure VoiceInvite where
  id : String
  channelId : String
  channelName : String
  serverId : String
  serverName : String
  inviterUserId : String
  inviterUsername : String
  inviterAvatar : Option String
  timestamp : String
  expiresAt : Nat
deriving DecidableEq, Repr

/-- Payload of a `voice_invite_received` socket event. -/
structure InviteEventData where
  channelId : String
  channelName : String
  serverId : String
  serverName : String
  inviterUserId : String
  inviterUsername : String
  inviterAvatar : Option String
  timestamp : String
deriving DecidableEq, Repr

/-- The state of the invite notifier hook: visible invites, the pending
expiration timeouts as `(fire time, invite id)` pairs, and logs of the
`onAccept` / `onDecline` callback invocations (by invite id). -/
structure InviteNotifierState where
  invites : List VoiceInvite
  timers : List (Nat × String)
  acceptedLog : List String
  declinedLog : List String
deriving DecidableEq, Repr

/-- The notifier before any invite arrives. -/
def InviteNotifierState.empty : InviteNotifierState :=
  { invites := [], timers := [], acceptedLog := [], declinedLog := [] }

/-- The invite id built on receipt:
`channelId-inviterUserId-Date.now()`. -/
def mkInviteId (channelId inviterUserId : String) (now : Nat) : String :=
  channelId ++ "-" ++ inviterUserId ++ "-" ++ toString now

/-- The `newInvite` object `handleVoiceInviteReceived` builds from the event
payload at receipt time `now` with TTL `ttl`. -/
def mkInvite (d : InviteEventData) (now ttl : Nat) : VoiceInvite :=
  { id := mkInviteId d.channelId d.inviterUserId now,
    channelId := d.channelId,
    channelName := d.channelName,
    serverId := d.serverId,
    serverName := d.serverName,
    inviterUserId := d.inviterUserId,
    inviterUsername := d.inviterUsername,
    inviterAvatar := d.inviterAvatar,
    timestamp := d.timestamp,
    expiresAt := now + ttl }

/-- `clearInvite`: removes the invite with the given id and cancels and
forgets the timer stored under that id. -/
def InviteNotifierState.clearInvite (s : InviteNotifierState)
    (inviteId : String) : InviteNotifierState :=
  { s with
    invites := s.invites.filter (fun inv => inv.id ≠ inviteId),
    timers := s.timers.filter (fun t => t.2 ≠ inviteId) }

/-- `handleVoiceInviteReceived` at time `now` with TTL `ttl`
(`inviteExpirationMs`, default 30000).  A fresh id and expiry are computed;
if a pending invite with the same `(channelId, inviterUserId)` exists, that
invite's `expiresAt` and `timestamp` are refreshed in place (keeping its
original id), otherwise the new invite is appended.  In either case a new
expiration timeout firing at `now + ttl` is scheduled under the fresh id —
the code never cancels the previous invite's still-pending timeout. -/
def InviteNotifierState.handleVoiceInviteReceived (s : InviteNotifierState)
    (d : InviteEventData) (now ttl : Nat) : InviteNotifierState :=
  let inviteId := mkInviteId d.channelId d.inviterUserId now
  let expiresAt := now + ttl
  let isDuplicate := s.invites.any
    (fun inv => inv.channelId == d.channelId &&
                inv.inviterUserId == d.inviterUserId)
  let invites :=
    if isDuplicate then
      s.invites.map (fun inv =>
        if inv.channelId == d.channelId &&
           inv.inviterUserId == d.inviterUserId then
          { inv with expiresAt := expiresAt, timestamp := d.timestamp }
        else inv)
    else
      s.invites ++ [mkInvite d now ttl]
  { s with
    invites := invites,
    timers := s.timers ++ [(expiresAt, inviteId)] }

/-- A pending expiration timeout firing: its callback runs
`clearInvite inviteId`.  The fired entry itself is consumed; `clearInvite`
removes it (and any other timer under the same id) from the table. -/
def InviteNotifierState.fireTimer (s : InviteNotifierState)
    (fireTime : Nat) (inviteId : String) : InviteNotifierState :=
  if (fireTime, inviteId) ∈ s.timers then s.clearInvite inviteId else s

/-- `acceptInvite`: when an invite with the id is pending, invoke `onAccept`
with it and clear it; otherwise do nothing. -/
def InviteNotifierState.acceptInvite (s : InviteNotifierState)
    (inviteId : String) : InviteNotifierState :=
  match s.invites.find? (fun inv => inv.id == inviteId) with
  | some inv =>
      InviteNotifierState.clearInvite
        { s with acceptedLog := s.acceptedLog ++ [inv.id] } inviteId
  | none => s

/-- `declineInvite`: when an invite with the id is pending, invoke
`onDecline` with it and clear it; otherwise do nothing. -/
def InviteNotifierState.declineInvite (s : InviteNotifierState)
    (inviteId : String) : InviteNotifierState :=
  match s.invites.find? (fun inv => inv.id == inviteId) with
  | some inv =>
      InviteNotifierState.clearInvite
        { s with declinedLog := s.declinedLog ++ [inv.id] } inviteId
  | none => s

/-- After filtering out every invite with a given id, no invite with that id
can be found. -/
theorem find?_id_filter_ne (l : List VoiceInvite) (x : String) :
    (l.filter (fun inv => inv.id ≠ x)).find? (fun inv => inv.id == x)
      = none := by
  rw [List.find?_eq_none]
  intro inv hmem
  have hne := (List.mem_filter.mp hmem).2
  simp_all

/-- C3: evaluation at the failing input.  Two invites from `alice` to `chan`
arrive at t=0 and t=5000 with TTL 30000.  Exactly one invite remains and its
`expiresAt` is refreshed to 35000 — but the first receipt's timeout, still
pending under the live invite's id, fires at t=30000 and removes the invite
5000 ms before its advertised expiry; the refreshed timeout at t=35000 runs
under a fresh id that matches no invite. -/
theorem c3_refreshed_expiry_not_honored :
    let d1 : InviteEventData :=
      { channelId := "chan", channelName := "General", serverId := "srv",
        serverName := "MyServer", inviterUserId := "alice",
        inviterUsername := "Alice", inviterAvatar := none, timestamp := "t0" }
    let d2 : InviteEventData := { d1 with timestamp := "t1" }
    let s2 :=
      (InviteNotifierState.empty.handleVoiceInviteReceived
          d1 0 30000).handleVoiceInviteReceived d2 5000 30000
    (s2.invites.map (fun inv => (inv.id, inv.expiresAt))
        = [("chan-alice-0", 35000)]) ∧
    ((30000, "chan-alice-0") ∈ s2.timers) ∧
    ((35000, "chan-alice-5000") ∈ s2.timers) ∧
    (s2.fireTimer 30000 "chan-alice-0").invites = [] := by
  decide

/-- C7: invite lifecycle.  (1) A freshly received (non-duplicate) invite is
pending, has a timeout scheduled at receipt + TTL, and firing that timeout
removes it automatically.  (2) `acceptInvite` on a pending id removes the
invite immediately and fires exactly the `onAccept` callback once;
`declineInvite` symmetrically fires exactly `onDecline` once.  (3) Accepting
or declining an unknown id changes nothing and fires no callback. -/
theorem c7_invite_lifecycle :
    (∀ (s : InviteNotifierState) (d : InviteEventData) (now ttl : Nat),
      s.invites.any (fun inv => inv.channelId == d.channelId &&
          inv.inviterUserId == d.inviterUserId) = false →
        ((now + ttl, mkInviteId d.channelId d.inviterUserId now)
            ∈ (s.handleVoiceInviteReceived d now ttl).timers) ∧
        (∃ inv ∈ (s.handleVoiceInviteReceived d now ttl).invites,
            inv.id = mkInviteId d.channelId d.inviterUserId now ∧
            inv.expiresAt = now + ttl) ∧
        (((s.handleVoiceInviteReceived d now ttl).fireTimer (now + ttl)
              (mkInviteId d.channelId d.inviterUserId now)).invites.find?
            (fun inv => inv.id == mkInviteId d.channelId d.inviterUserId now)
          = none)) ∧
    (∀ (s : InviteNotifierState) (inviteId : String) (inv : VoiceInvite),
      s.invites.find? (fun i => i.id == inviteId) = some inv →
        ((s.acceptInvite inviteId).invites.find?
            (fun i => i.id == inviteId) = none ∧
          (s.acceptInvite inviteId).acceptedLog
            = s.acceptedLog ++ [inv.id] ∧
          (s.acceptInvite inviteId).declinedLog = s.declinedLog) ∧
        ((s.declineInvite inviteId).invites.find?
            (fun i => i.id == inviteId) = none ∧
          (s.declineInvite inviteId).declinedLog
            = s.declinedLog ++ [inv.id] ∧
          (s.declineInvite inviteId).acceptedLog = s.acceptedLog)) ∧
    (∀ (s : InviteNotifierState) (inviteId : String),
      s.invites.find? (fun i => i.id == inviteId) = none →
        s.acceptInvite inviteId = s ∧ s.declineInvite inviteId = s) := by
  refine ⟨?_, ?_, ?_⟩
  · intro s d now ttl hnodup
    refine ⟨?_, ?_, ?_⟩
    · simp [InviteNotifierState.handleVoiceInviteReceived]
    · refine ⟨mkInvite d now ttl, ?_, rfl, rfl⟩
      simp [InviteNotifierState.handleVoiceInviteReceived, hnodup]
    · have hmem : (now + ttl, mkInviteId d.channelId d.inviterUserId now)
          ∈ (s.handleVoiceInviteReceived d now ttl).timers := by
        simp [InviteNotifierState.handleVoiceInviteReceived]
      simp [InviteNotifierState.fireTimer, hmem,
        InviteNotifierState.clearInvite, find?_id_filter_ne]
  · intro s inviteId inv hfind
    refine ⟨⟨?_, ?_, ?_⟩, ⟨?_, ?_, ?_⟩⟩ <;>
      simp [InviteNotifierState.acceptInvite,
        InviteNotifierState.declineInvite, hfind,
        InviteNotifierState.clearInvite, find?_id_filter_ne]
  · intro s inviteId hfind
    constructor <;>
      simp [InviteNotifierState.acceptInvite,
        InviteNotifierState.declineInvite, hfind]

/-- Concrete invite event used by the C7 witness. -/
def c7Data : InviteEventData :=
  { channelId := "chan2", channelName := "Gaming", serverId := "srv2",
    serverName := "OtherServer", inviterUserId := "bob",
    inviterUsername := "Bob", inviterAvatar := none, timestamp := "ts0" }

/-- The invite created from `c7Data` at t=0 with TTL 30000. -/
def c7Invite : VoiceInvite :=
  { id := "chan2-bob-0", channelId := "chan2", channelName := "Gaming",
    serverId := "srv2", serverName := "OtherServer", inviterUserId := "bob",
    inviterUsername := "Bob", inviterAvatar := none, timestamp := "ts0",
    expiresAt := 30000 }

/-- C7 witness: accepting the concrete pending invite fires `onAccept`
exactly once. -/
theorem c7_invite_lifecycle_witness :
    ((InviteNotifierState.empty.handleVoiceInviteReceived
        c7Data 0 30000).acceptInvite "chan2-bob-0").acceptedLog
      = (InviteNotifierState.empty.handleVoiceInviteReceived
          c7Data 0 30000).acceptedLog ++ ["chan2-bob-0"] :=
  ((c7_invite_lifecycle.2.1
      (InviteNotifierState.empty.handleVoiceInviteReceived c7Data 0 30000)
      "chan2-bob-0" c7Invite (by decide)).1).2.1

/-- The three device acquisition strategies of the provider's
initialization cascade, in the order the code tries them. -/
inductive AcquisitionMode where
  | fullAV
  | audioOnly
  | videoOnly
deriving DecidableEq, Repr

/-- The provider state touched by `initializeManager`: the initialization
flag, the `permissionError` message, and which acquisition mode the local
media state came from (set on the successful strategy). -/
structure ProviderState where
  isInitialized : Bool
  permissionError : Option String
  activeMode : Option AcquisitionMode
deriving DecidableEq, Repr

/-- Result of one `initializeManager` call: the new provider state, the
returned boolean, and the acquisition strategies attempted, in order. -/
structure InitRunResult where
  state : ProviderState
  success : Bool
  attempts : List AcquisitionMode
deriving DecidableEq, Repr

/-- `initializeManager` of the voice call provider.  When already
initialized it returns `true` at once.  Otherwise it clears
`permissionError` and tries `manager.initialize(true, true)`,
`manager.initializeAudioOnly()`, `manager.initializeVideoOnly()` in that
order, stopping at the first success (recording the degraded mode in the
`permissionError` note), and only when all three reject does it set the
all-denied permission error and return `false`.  The booleans say whether
each underlying acquisition would succeed. -/
def videoDeniedNote : String :=
  "Video permission denied. Audio-only mode active."

def audioDeniedNote : String :=
  "Audio permission denied. Video-only mode active."

def allDeniedNote : String :=
  "Camera and microphone access denied. Please allow permissions and try again."

def initializeManager (st : ProviderState)
    (fullOk audioOk videoOk : Bool) : InitRunResult :=
  if st.isInitialized then { state := st, success := true, attempts := [] }
  else if fullOk then
    let st₁ : ProviderState :=
      { isInitialized := true,
        permissionError := none,
        activeMode := some AcquisitionMode.fullAV }
    { state := st₁, success := true, attempts := [AcquisitionMode.fullAV] }
  else if audioOk then
    let st₁ : ProviderState :=
      { isInitialized := true,
        permissionError := some videoDeniedNote,
        activeMode := some AcquisitionMode.audioOnly }
    { state := st₁, success := true,
      attempts := [AcquisitionMode.fullAV, AcquisitionMode.audioOnly] }
  else if videoOk then
    let st₁ : ProviderState :=
      { isInitialized := true,
        permissionError := some audioDeniedNote,
        activeMode := some AcquisitionMode.videoOnly }
    { state := st₁, success := true,
      attempts := [AcquisitionMode.fullAV, AcquisitionMode.audioOnly,
        AcquisitionMode.videoOnly] }
  else
    let st₁ : ProviderState := { st with permissionError := some allDeniedNote }
    { state := st₁, success := false,
      attempts := [AcquisitionMode.fullAV, AcquisitionMode.audioOnly,
        AcquisitionMode.videoOnly] }

/-- C5: the initialization cascade tries combined audio+video, then
audio-only, then video-only, in that fixed order, stopping at the first
success; it reports success exactly when some strategy succeeds, records
the degraded mode that is active, and surfaces the permission error only
when all three strategies fail (leaving the provider uninitialized). -/
theorem c5_fallback_cascade (st : ProviderState)
    (fullOk audioOk videoOk : Bool) (h : st.isInitialized = false) :
    ((initializeManager st fullOk audioOk videoOk).success
        = (fullOk || audioOk || videoOk)) ∧
    ((initializeManager st fullOk audioOk videoOk).attempts
        = if fullOk then [AcquisitionMode.fullAV]
          else if audioOk then
            [AcquisitionMode.fullAV, AcquisitionMode.audioOnly]
          else [AcquisitionMode.fullAV, AcquisitionMode.audioOnly,
            AcquisitionMode.videoOnly]) ∧
    (fullOk = false → audioOk = false → videoOk = false →
      (initializeManager st fullOk audioOk videoOk).state.permissionError
          = some allDeniedNote ∧
      (initializeManager st fullOk audioOk videoOk).state.isInitialized
          = false) ∧
    (fullOk = true →
      (initializeManager st fullOk audioOk videoOk).state.activeMode
          = some AcquisitionMode.fullAV ∧
      (initializeManager st fullOk audioOk videoOk).state.permissionError
          = none) ∧
    (fullOk = false → audioOk = true →
      (initializeManager st fullOk audioOk videoOk).state.activeMode
          = some AcquisitionMode.audioOnly ∧
      (initializeManager st fullOk audioOk videoOk).state.permissionError
          = some videoDeniedNote) ∧
    (fullOk = false → audioOk = false → videoOk = true →
      (initializeManager st fullOk audioOk videoOk).state.activeMode
          = some AcquisitionMode.videoOnly) := by
  cases fullOk <;> cases audioOk <;> cases videoOk <;>
    simp [initializeManager, h]

/-- C5 witness: with combined acquisition failing and audio available,
initialization succeeds in audio-only mode. -/
theorem c5_fallback_cascade_witness :
    (initializeManager
        { isInitialized := false, permissionError := none, activeMode := none }
        false true false).success
      = (false || true || false) :=
  (c5_fallback_cascade
    { isInitialized := false, permissionError := none, activeMode := none }
    false true false rfl).1
